import Mathlib

/-!
# gpg-kms: the KMS signer adapter and the PGP conversion pipeline

A shallow embedding of `aws/signer.go`, `aws/aws.go`, `converter.go` and the
`sign` function of `cmd/gpg-kms/main.go`.

Conventions of the embedding.

* A Go `error` is `GoError = Option Error`; `none` is the `nil` error.
* A Go result `([]byte, error)` or `(*T, error)` is a pair whose first
  component is an `Option` (`none` is `nil`).
* A Go function that can panic returns an `Outcome`.
* Calls into collaborators (the KMS service, the openpgp library, the
  operating system) are functions supplied by a world record, and every
  call made is appended to a log of `Call`s, in program order.
-/

set_option autoImplicit false
set_option linter.dupNamespace false

namespace GpgKms

/-! ## Errors (`github.com/pkg/errors`) -/

/-- Non-nil Go error values. -/
inductive Error where
  /-- Made by `errors.New(msg)`. -/
  | new (msg : String)
  /-- Made by `errors.Wrap(cause, msg)` for a non-nil `cause`. -/
  | wrap (cause : Error) (msg : String)
  /-- An error made outside this repository (remote service, library, OS). -/
  | ext (code : Nat)
  deriving DecidableEq, Repr

/-- A Go `error` interface value; `none` is `nil`. -/
abbrev GoError := Option Error

/-- The function `errors.New`: always a non-nil error. -/
def errors.New (msg : String) : GoError := some (Error.new msg)

/-- The function `errors.Wrap` of `github.com/pkg/errors`: it annotates `err`
with `msg`, and "if err is nil, Wrap returns nil". -/
def errors.Wrap (err : GoError) (msg : String) : GoError :=
  match err with
  | none => none
  | some e => some (Error.wrap e msg)

/-- Result of a Go call that may panic instead of returning. -/
inductive Outcome (α : Type) where
  | returned (v : α)
  | panicked
  deriving DecidableEq, Repr

/-- Result of a collaborator call: a value, a non-nil error, or a panic. -/
inductive Res (α : Type) where
  | ok (v : α)
  | err (e : Error)
  | panic
  deriving DecidableEq, Repr

abbrev Bytes := List Nat

/-- Go `time.Time`, as a number of seconds; `0` stands for the zero value. -/
abbrev Time := Int

/-! ## `crypto` -/

/-- The constant `crypto.SHA256` (the fifth `crypto.Hash`). -/
def crypto.SHA256 : Nat := 5

/-- The method `crypto.Hash.Size`: the table of digest sizes in bytes, from
MD4 (1) to BLAKE2b-512 (19); `0` stands for the panic on an unknown hash. -/
def crypto.Hash.Size (h : Nat) : Nat :=
  match h with
  | 1 => 16
  | 2 => 16
  | 3 => 20
  | 4 => 28
  | 5 => 32
  | 6 => 48
  | 7 => 64
  | 8 => 36
  | 9 => 20
  | 10 => 28
  | 11 => 32
  | 12 => 48
  | 13 => 64
  | 14 => 28
  | 15 => 32
  | 16 => 32
  | 17 => 32
  | 18 => 48
  | 19 => 64
  | _ => 0

/-- A `crypto.SignerOpts` interface value: nil, a `crypto.Hash` itself, or
a value of another dynamic type (such as `*rsa.PSSOptions`) with its
`HashFunc()`. -/
inductive SignerOpts where
  | nil
  | hash (h : Nat)
  | other (hashFunc : Nat)
  deriving DecidableEq, Repr

/-- Elliptic curves `x509.ParsePKIXPublicKey` can return. -/
inductive Curve where
  | P224 | P256 | P384 | P521
  deriving DecidableEq, Repr

/-- An `*ecdsa.PublicKey`. -/
structure ECDSAPublicKey where
  Curve : Curve
  X : Nat
  Y : Nat
  deriving DecidableEq, Repr

/-- A `crypto.PublicKey` interface value, by dynamic type. -/
inductive CryptoPublicKey where
  | ecdsa (k : ECDSAPublicKey)
  | rsa (n e : Nat)
  | other (tag : Nat)
  deriving DecidableEq, Repr

/-! ## The KMS service -/

/-- A `kms.SignInput`. -/
structure SignInput where
  KeyId : String
  Message : Bytes
  MessageType : String
  SigningAlgorithm : String
  deriving DecidableEq, Repr

structure SignOutput where
  Signature : Bytes
  deriving DecidableEq, Repr

structure KeyMetadata where
  CreationDate : Option Time
  deriving DecidableEq, Repr

structure DescribeKeyOutput where
  KeyMetadata : Option KeyMetadata
  deriving DecidableEq, Repr

structure GetPublicKeyOutput where
  PublicKey : Bytes
  deriving DecidableEq, Repr

/-- A `*kms.KMS` client handle. -/
abbrev KMSClient := Nat

/-- The remote service behind a client: what each request returns. -/
structure KMS where
  Sign : KMSClient → SignInput → Except Error SignOutput
  DescribeKeyWithContext : KMSClient → Nat → String → Except Error DescribeKeyOutput
  GetPublicKey : KMSClient → String → Except Error GetPublicKeyOutput

/-! ## `aws/signer.go` -/

/-- The struct `signer`. -/
structure signer where
  kms : KMSClient
  keyID : String
  publicKey : CryptoPublicKey
  deriving DecidableEq, Repr

/-- The function `newSigner`. -/
def newSigner (kms : KMSClient) (keyID : String) (pubKey : CryptoPublicKey) : signer :=
  { kms := kms, keyID := keyID, publicKey := pubKey }

/-- The method `signer.Public`. -/
def signer.Public (s : signer) : CryptoPublicKey := s.publicKey

/-- What one call of `signer.Sign` leaves behind. -/
structure SignResult where
  /-- The receiver after the call. -/
  self : signer
  /-- The returned `[]byte` (`none` is `nil`). -/
  signature : Option Bytes
  /-- The returned `error`. -/
  err : GoError
  /-- The requests sent to the remote service, in order. -/
  requests : List SignInput

/-- The method `signer.Sign`. -/
def signer.Sign (svc : KMS) (s : signer) (digest : Bytes) (opts : SignerOpts) : SignResult :=
  if digest.length ≠ crypto.Hash.Size crypto.SHA256 ∨ opts ≠ SignerOpts.hash crypto.SHA256 then
    { self := s, signature := none,
      err := errors.New "only SHA-256 digest are supported", requests := [] }
  else
    let input : SignInput :=
      { KeyId := s.keyID, Message := digest,
        MessageType := "DIGEST", SigningAlgorithm := "ECDSA_SHA_256" }
    match svc.Sign s.kms input with
    | Except.error e =>
      { self := s, signature := none,
        err := errors.Wrap (some e) "failed to sign digest", requests := [input] }
    | Except.ok so =>
      { self := s, signature := some so.Signature, err := none, requests := [input] }

/-! ## `golang.org/x/crypto/openpgp/packet` -/

/-- The constant `packet.PubKeyAlgoRSA`. -/
def packet.PubKeyAlgoRSA : Nat := 1

/-- The constant `packet.PubKeyAlgoECDSA`. -/
def packet.PubKeyAlgoECDSA : Nat := 19

/-- The constant `packet.SigTypePositiveCert`. -/
def packet.SigTypePositiveCert : Nat := 0x13

/-- The fields of a `packet.PublicKey` this program reads or sets. -/
structure packet.PublicKey where
  CreationTime : Time
  PubKeyAlgo : Nat
  PublicKey : CryptoPublicKey
  KeyId : Nat
  deriving DecidableEq, Repr

/-- A `packet.PrivateKey`: the embedded public key packet and the
`crypto.Signer` it delegates to. -/
structure packet.PrivateKey where
  PublicKey : packet.PublicKey
  PrivateKey : signer
  deriving DecidableEq, Repr

/-- A `packet.Config`; the zero value has `DefaultHash = 0`. -/
structure packet.Config where
  DefaultHash : Nat
  deriving DecidableEq, Repr

/-- The method `packet.Config.Hash`: the configured hash, SHA-256 when the
field is left at zero. -/
def packet.Config.Hash (c : packet.Config) : Nat :=
  if c.DefaultHash = 0 then crypto.SHA256 else c.DefaultHash

/-- A `packet.UserId`. -/
structure packet.UserId where
  Id : String
  Name : String
  Comment : String
  Email : String
  deriving DecidableEq, Repr

/-- The test `strings.ContainsAny(s, "()<>\x00")`. -/
def containsInvalid (s : String) : Bool :=
  s.toList.any (fun ch => ch = '(' || ch = ')' || ch = '<' || ch = '>' || ch = Char.ofNat 0)

/-- The function `packet.NewUserId` of the openpgp library: `nil` when an
argument holds one of the characters `( ) < >` or NUL; otherwise the id is
the name, then the comment in parentheses when it is non-empty, then the
email in angle brackets when it is non-empty, separated by single spaces. -/
def packet.NewUserId (name comment email : String) : Option packet.UserId :=
  if containsInvalid name || containsInvalid comment || containsInvalid email then
    none
  else
    let id0 := name
    let id1 :=
      if comment.length > 0 then
        (if id0.length > 0 then id0 ++ " " else id0) ++ "(" ++ comment ++ ")"
      else id0
    let id2 :=
      if email.length > 0 then
        (if id1.length > 0 then id1 ++ " " else id1) ++ "<" ++ email ++ ">"
      else id1
    some { Id := id2, Name := name, Comment := comment, Email := email }

/-- The descriptive fields of a `packet.Signature` set by `Export`, and the
material (`signed`) filled in when the signature is computed. -/
structure packet.Signature where
  SigType : Nat
  PubKeyAlgo : Nat
  Hash : Nat
  CreationTime : Time
  IssuerKeyId : Option Nat
  IsPrimaryId : Option Bool
  FlagsValid : Bool
  FlagCertify : Bool
  FlagSign : Bool
  signed : Option Bytes
  deriving DecidableEq, Repr

/-- The function `packet.NewECDSAPublicKey`: it panics on a curve other than
P-256, P-384 and P-521. The key id is derived from the fingerprint by
`keyId`. -/
def packet.NewECDSAPublicKey (keyId : Time → CryptoPublicKey → Nat)
    (creationTime : Time) (pub : ECDSAPublicKey) : Outcome packet.PublicKey :=
  match pub.Curve with
  | Curve.P224 => Outcome.panicked
  | _ =>
    Outcome.returned
      { CreationTime := creationTime
        PubKeyAlgo := packet.PubKeyAlgoECDSA
        PublicKey := CryptoPublicKey.ecdsa pub
        KeyId := keyId creationTime (CryptoPublicKey.ecdsa pub) }

/-- The function `packet.NewRSAPublicKey`. -/
def packet.NewRSAPublicKey (keyId : Time → CryptoPublicKey → Nat)
    (creationTime : Time) (n e : Nat) : packet.PublicKey :=
  { CreationTime := creationTime
    PubKeyAlgo := packet.PubKeyAlgoRSA
    PublicKey := CryptoPublicKey.rsa n e
    KeyId := keyId creationTime (CryptoPublicKey.rsa n e) }

/-- The function `packet.NewSignerPrivateKey`: a type switch on
`signer.Public()`, panicking on an unknown key type. -/
def packet.NewSignerPrivateKey (keyId : Time → CryptoPublicKey → Nat)
    (creationTime : Time) (s : signer) : Outcome packet.PrivateKey :=
  match s.Public with
  | CryptoPublicKey.rsa n e =>
    Outcome.returned
      { PublicKey := packet.NewRSAPublicKey keyId creationTime n e, PrivateKey := s }
  | CryptoPublicKey.ecdsa pubkey =>
    match packet.NewECDSAPublicKey keyId creationTime pubkey with
    | Outcome.returned pk => Outcome.returned { PublicKey := pk, PrivateKey := s }
    | Outcome.panicked => Outcome.panicked
  | CryptoPublicKey.other _ => Outcome.panicked

/-! ## `golang.org/x/crypto/openpgp` -/

/-- An `openpgp.Identity`. -/
structure openpgp.Identity where
  Name : String
  UserId : Option packet.UserId
  SelfSignature : Option packet.Signature
  deriving DecidableEq, Repr

/-- An `openpgp.Entity` as `NewWithContext` builds it: primary key, private
key and the `Identities` map, which has one binding per user-id string. -/
structure openpgp.Entity where
  PrimaryKey : packet.PublicKey
  PrivateKey : packet.PrivateKey
  Identities : AList (fun _ : String => openpgp.Identity)
  deriving DecidableEq

/-- An `openpgp.FileHints`. -/
structure openpgp.FileHints where
  IsBinary : Bool
  FileName : String
  ModTime : Time
  deriving DecidableEq, Repr

/-- The zero value of `openpgp.FileHints` (`var fileHints openpgp.FileHints`). -/
def openpgp.FileHints.zero : openpgp.FileHints :=
  { IsBinary := false, FileName := "", ModTime := 0 }

/-! ## `os`, `io`, `path/filepath` -/

/-- An `os.FileInfo`. -/
structure FileInfo where
  ModTime : Time
  deriving DecidableEq, Repr

/-- An open `*os.File`: its name, what `Stat()` returns on it, and its data.
`Stat` returns a nil `FileInfo` together with every non-nil error. -/
structure File where
  Name : String
  Stat : Except Error FileInfo
  data : Bytes

/-- An `io.Reader`, by dynamic type: an `*os.File` or something else. -/
inductive Reader where
  | file (f : File)
  | other (data : Bytes)

/-- The function `filepath.Base` (Unix): the last element of the path, after
removing trailing slashes; `.` for the empty path and `/` for a path of
slashes only. -/
def filepath.Base (path : String) : String :=
  if path = "" then "."
  else
    let stripped := (path.toList.reverse.dropWhile (fun ch => ch = '/')).reverse
    let last := (stripped.reverse.takeWhile (fun ch => ch ≠ '/')).reverse
    if last = [] then "/" else String.mk last

/-! ## The openpgp library as a collaborator -/

/-- The openpgp routines `converter.go` calls. `Writer` is the state of an
`io.Writer` stacked on the local `bytes.Buffer` (the buffer included): `bb`
is the empty buffer itself and `Bytes` reads the buffer back. A routine that
fails returns only its error, since the source then drops the buffer. -/
structure OpenPGP where
  Writer : Type
  bb : Writer
  Bytes : Writer → Bytes
  /-- The routine `openpgp.ArmoredDetachSign(w, signer, message, config)`. -/
  ArmoredDetachSign : Writer → Option openpgp.Entity → Reader → packet.Config → Res Writer
  /-- The routine `openpgp.DetachSign(w, signer, message, config)`. -/
  DetachSign : Writer → Option openpgp.Entity → Reader → packet.Config → Res Writer
  /-- The routine `clearsign.Encode(w, privateKey, config)`. -/
  clearsignEncode : Writer → packet.PrivateKey → packet.Config → Res Writer
  /-- The routine `openpgp.Sign(output, signed, hints, config)`. -/
  Sign : Writer → Option openpgp.Entity → openpgp.FileHints → packet.Config → Res Writer
  /-- The call `io.Copy(wc, data)`. -/
  Copy : Writer → Reader → Res Writer
  /-- The call `wc.Close()`. -/
  Close : Writer → Res Writer
  /-- The method `Signature.SignUserId(id, pub, priv, config)`: it computes
  the signature material and leaves the descriptive fields as they are. -/
  SignUserId : packet.Signature → String → packet.PublicKey → packet.PrivateKey →
    packet.Config → Res GpgKms.Bytes
  /-- The routine `armor.Encode(out, blockType, headers)`. -/
  armorEncode : Writer → String → Res Writer
  /-- The method `Entity.Serialize(w)`. -/
  Serialize : openpgp.Entity → Writer → Res Writer

/-- The calls a run makes to its collaborators. -/
inductive Call where
  | ArmoredDetachSign (signer : Option openpgp.Entity) (config : packet.Config)
  | DetachSign (signer : Option openpgp.Entity) (config : packet.Config)
  | clearsignEncode (privateKey : packet.PrivateKey) (config : packet.Config)
  | Sign (signed : Option openpgp.Entity) (hints : openpgp.FileHints) (config : packet.Config)
  | Copy
  | Close
  | SignUserId (id : String) (pub : packet.PublicKey) (priv : packet.PrivateKey)
      (config : packet.Config)
  | armorEncode (blockType : String)
  | Serialize (e : openpgp.Entity)
  | Write (b : Bytes)
  deriving DecidableEq

/-! ## `converter.go` -/

/-- The struct `Converter`; `entity` is a pointer and may be nil. -/
structure Converter where
  entity : Option openpgp.Entity
  cfg : packet.Config
  deriving DecidableEq

/-- The function `New` of package `gpgkms`: `cfg` is left at its zero value. -/
def New (entity : Option openpgp.Entity) : Converter :=
  { entity := entity, cfg := { DefaultHash := 0 } }

/-- A run of a `Converter` method: the receiver afterwards, the collaborator
calls made, and the returned `([]byte, error)` or a panic. -/
structure Run where
  conv : Converter
  calls : List Call
  result : Outcome (Option Bytes × GoError)

/-- The tail of the `default` case of `Converter.Sign`: `io.Copy(wc, data)`,
`wc.Close()` and `bb.Bytes()`. `pre` holds the calls made so far. -/
def Converter.finish (lib : OpenPGP) (c : Converter) (pre : List Call) (wc : lib.Writer)
    (data : Reader) : Run :=
  match lib.Copy wc data with
  | Res.panic => { conv := c, calls := pre ++ [Call.Copy], result := Outcome.panicked }
  | Res.err e =>
    -- wc.Close() is called and its result dropped
    { conv := c, calls := pre ++ [Call.Copy, Call.Close],
      result := Outcome.returned (none, errors.Wrap (some e) "failed to sign data") }
  | Res.ok wc1 =>
    match lib.Close wc1 with
    | Res.panic =>
      { conv := c, calls := pre ++ [Call.Copy, Call.Close], result := Outcome.panicked }
    | Res.err e =>
      { conv := c, calls := pre ++ [Call.Copy, Call.Close],
        result := Outcome.returned (none, errors.Wrap (some e) "failed to finalize signature") }
    | Res.ok wc2 =>
      { conv := c, calls := pre ++ [Call.Copy, Call.Close],
        result := Outcome.returned (some (lib.Bytes wc2), none) }

/-- The file hints built in the inline branch of `Converter.Sign`. For a
file, `FileName` is set, then `f.Stat()` is called and `fi.ModTime()` is
read only under `err != nil`, where `fi` is nil: that call panics. -/
def Converter.fileHints (data : Reader) : Outcome openpgp.FileHints :=
  let fileHints := openpgp.FileHints.zero
  match data with
  | Reader.file f =>
    let fileHints := { fileHints with FileName := filepath.Base f.Name }
    match f.Stat with
    | Except.error _ => Outcome.panicked
    | Except.ok _ => Outcome.returned fileHints
  | Reader.other _ => Outcome.returned fileHints

/-- The method `Converter.Sign`. -/
def Converter.Sign (lib : OpenPGP) (c : Converter) (data : Reader)
    (clearsigned detached armored : Bool) : Run :=
  if detached && armored then
    match lib.ArmoredDetachSign lib.bb c.entity data c.cfg with
    | Res.panic =>
      { conv := c, calls := [Call.ArmoredDetachSign c.entity c.cfg], result := Outcome.panicked }
    | Res.err e =>
      { conv := c, calls := [Call.ArmoredDetachSign c.entity c.cfg],
        result := Outcome.returned
          (none, errors.Wrap (some e) "failed to generate detached armored signature") }
    | Res.ok bb =>
      { conv := c, calls := [Call.ArmoredDetachSign c.entity c.cfg],
        result := Outcome.returned (some (lib.Bytes bb), none) }
  else if detached then
    match lib.DetachSign lib.bb c.entity data c.cfg with
    | Res.panic =>
      { conv := c, calls := [Call.DetachSign c.entity c.cfg], result := Outcome.panicked }
    | Res.err e =>
      { conv := c, calls := [Call.DetachSign c.entity c.cfg],
        result := Outcome.returned
          (none, errors.Wrap (some e) "failed to generate detached signature") }
    | Res.ok bb =>
      { conv := c, calls := [Call.DetachSign c.entity c.cfg],
        result := Outcome.returned (some (lib.Bytes bb), none) }
  else
    -- not detached, the value of armored is ignored
    if clearsigned then
      match c.entity with
      | none => { conv := c, calls := [], result := Outcome.panicked }
      | some entity =>
        match lib.clearsignEncode lib.bb entity.PrivateKey c.cfg with
        | Res.panic =>
          { conv := c, calls := [Call.clearsignEncode entity.PrivateKey c.cfg],
            result := Outcome.panicked }
        | Res.err e =>
          { conv := c, calls := [Call.clearsignEncode entity.PrivateKey c.cfg],
            result := Outcome.returned
              (none, errors.Wrap (some e) "failed create clearsign writer") }
        | Res.ok wc =>
          Converter.finish lib c [Call.clearsignEncode entity.PrivateKey c.cfg] wc data
    else
      match Converter.fileHints data with
      | Outcome.panicked => { conv := c, calls := [], result := Outcome.panicked }
      | Outcome.returned fileHints =>
        match lib.Sign lib.bb c.entity fileHints c.cfg with
        | Res.panic =>
          { conv := c, calls := [Call.Sign c.entity fileHints c.cfg],
            result := Outcome.panicked }
        | Res.err e =>
          { conv := c, calls := [Call.Sign c.entity fileHints c.cfg],
            result := Outcome.returned
              (none, errors.Wrap (some e) "failed to create signature writer") }
        | Res.ok wc =>
          Converter.finish lib c [Call.Sign c.entity fileHints c.cfg] wc data

/-- The self-signature literal of `Converter.Export`, before it is signed. -/
def Converter.selfSignature (cfg : packet.Config) (primaryKey : packet.PublicKey) :
    packet.Signature :=
  { SigType := packet.SigTypePositiveCert
    PubKeyAlgo := primaryKey.PubKeyAlgo
    Hash := cfg.Hash
    CreationTime := primaryKey.CreationTime
    IssuerKeyId := some primaryKey.KeyId
    IsPrimaryId := some true
    FlagsValid := true
    FlagCertify := true
    FlagSign := true
    signed := none }

/-- The method `Converter.Export`. -/
def Converter.Export (lib : OpenPGP) (c : Converter) (name comment email : String)
    (armored : Bool) : Run :=
  match packet.NewUserId name comment email with
  | none =>
    { conv := c, calls := [],
      result := Outcome.returned (none, errors.New "failed to create PGP User ID") }
  | some uid =>
    match c.entity with
    | none => { conv := c, calls := [], result := Outcome.panicked }
    | some entity =>
      let sig := Converter.selfSignature c.cfg entity.PrimaryKey
      let identity : openpgp.Identity :=
        { Name := uid.Id, UserId := some uid, SelfSignature := some sig }
      let entity1 := { entity with Identities := entity.Identities.insert uid.Id identity }
      let c1 := { c with entity := some entity1 }
      let signCall := Call.SignUserId uid.Id entity.PrimaryKey entity.PrivateKey c.cfg
      match lib.SignUserId sig uid.Id entity.PrimaryKey entity.PrivateKey c.cfg with
      | Res.panic => { conv := c1, calls := [signCall], result := Outcome.panicked }
      | Res.err e =>
        { conv := c1, calls := [signCall],
          result := Outcome.returned (none, errors.Wrap (some e) "failed to self-sign public key") }
      | Res.ok material =>
        -- the signature is reached through the pointer stored in the map
        let signedIdentity := { identity with SelfSignature := some { sig with signed := some material } }
        let entity2 :=
          { entity with Identities := entity.Identities.insert uid.Id signedIdentity }
        let c2 := { c with entity := some entity2 }
        if armored then
          match lib.armorEncode lib.bb "PGP PUBLIC KEY BLOCK" with
          | Res.panic =>
            { conv := c2, calls := [signCall, Call.armorEncode "PGP PUBLIC KEY BLOCK"],
              result := Outcome.panicked }
          | Res.err e =>
            { conv := c2, calls := [signCall, Call.armorEncode "PGP PUBLIC KEY BLOCK"],
              result := Outcome.returned
                (none, errors.Wrap (some e) "failed to created armored writer") }
          | Res.ok wc =>
            match lib.Serialize entity2 wc with
            | Res.panic =>
              { conv := c2,
                calls := [signCall, Call.armorEncode "PGP PUBLIC KEY BLOCK",
                  Call.Serialize entity2],
                result := Outcome.panicked }
            | Res.err e =>
              -- wc.Close() is called and its result dropped
              { conv := c2,
                calls := [signCall, Call.armorEncode "PGP PUBLIC KEY BLOCK",
                  Call.Serialize entity2, Call.Close],
                result := Outcome.returned
                  (none, errors.Wrap (some e) "failed serialize armored public key") }
            | Res.ok wc1 =>
              match lib.Close wc1 with
              | Res.panic =>
                { conv := c2,
                  calls := [signCall, Call.armorEncode "PGP PUBLIC KEY BLOCK",
                    Call.Serialize entity2, Call.Close],
                  result := Outcome.panicked }
              | Res.err e =>
                { conv := c2,
                  calls := [signCall, Call.armorEncode "PGP PUBLIC KEY BLOCK",
                    Call.Serialize entity2, Call.Close],
                  result := Outcome.returned
                    (none, errors.Wrap (some e) "failed to dump armored key") }
              | Res.ok wc2 =>
                { conv := c2,
                  calls := [signCall, Call.armorEncode "PGP PUBLIC KEY BLOCK",
                    Call.Serialize entity2, Call.Close],
                  result := Outcome.returned (some (lib.Bytes wc2), none) }
        else
          match lib.Serialize entity2 lib.bb with
          | Res.panic =>
            { conv := c2, calls := [signCall, Call.Serialize entity2],
              result := Outcome.panicked }
          | Res.err e =>
            { conv := c2, calls := [signCall, Call.Serialize entity2],
              result := Outcome.returned
                (none, errors.Wrap (some e) "failed serialize public key") }
          | Res.ok bb =>
            { conv := c2, calls := [signCall, Call.Serialize entity2],
              result := Outcome.returned (some (lib.Bytes bb), none) }

/-! ## `aws/aws.go` -/

/-- The collaborators of `NewWithContext`: session creation, the KMS client
constructor and service, the DER decoder, and the key id the packet library
derives from a key's fingerprint. -/
structure AWS where
  NewSessionWithOptions : Except Error Nat
  kmsNew : Nat → List Nat → KMSClient
  svc : KMS
  ParsePKIXPublicKey : Bytes → Except Error CryptoPublicKey
  keyId : Time → CryptoPublicKey → Nat

/-- The function `NewWithContext`. -/
def NewWithContext (w : AWS) (ctx : Nat) (key : String) (cfgs : List Nat) :
    Outcome (Option openpgp.Entity × GoError) :=
  match w.NewSessionWithOptions with
  | Except.error err =>
    Outcome.returned (none, errors.Wrap (some err) "could not create aws session")
  | Except.ok session =>
    let kmsSVC := w.kmsNew session cfgs
    match w.svc.DescribeKeyWithContext kmsSVC ctx key with
    | Except.error err =>
      Outcome.returned (none, errors.Wrap (some err) "could not get key information")
    | Except.ok ki =>
      match w.svc.GetPublicKey kmsSVC key with
      | Except.error err =>
        Outcome.returned (none, errors.Wrap (some err) "could not retrieve public key")
      | Except.ok pk =>
        match w.ParsePKIXPublicKey pk.PublicKey with
        | Except.error err =>
          Outcome.returned (none, errors.Wrap (some err) "could not convert public key from DER")
        | Except.ok decodedPK =>
          -- the decoder succeeded: the variable err holds nil from here on
          let err : GoError := none
          match decodedPK with
          | CryptoPublicKey.ecdsa ecdsaPK =>
            let signer := newSigner kmsSVC key decodedPK
            match ki.KeyMetadata with
            | none => Outcome.panicked
            | some metadata =>
              match metadata.CreationDate with
              | none => Outcome.panicked
              | some creationDate =>
                match packet.NewECDSAPublicKey w.keyId creationDate ecdsaPK with
                | Outcome.panicked => Outcome.panicked
                | Outcome.returned primaryKey =>
                  match packet.NewSignerPrivateKey w.keyId creationDate signer with
                  | Outcome.panicked => Outcome.panicked
                  | Outcome.returned privateKey =>
                    Outcome.returned
                      (some { PrimaryKey := primaryKey, PrivateKey := privateKey,
                              Identities := ∅ }, none)
          | _ => Outcome.returned (none, errors.Wrap err "public key is not in ECDSA format")

/-! ## `cmd/gpg-kms/main.go` -/

/-- What `sign` reads from its `*cli.Context`: the positional arguments and
the three boolean flags. -/
structure Context where
  Args : List String
  clearSign : Bool
  detachSign : Bool
  armor : Bool
  deriving DecidableEq, Repr

/-- The operating system as `sign` uses it. A destination is `none` for
`os.Stdout` or the handle of a created file. -/
structure OS where
  Stdin : File
  Open : String → Except Error File
  Create : String → Except Error Nat
  Write : Option Nat → Bytes → GoError

/-- A run of `sign`: the collaborator calls made and the returned error. -/
structure CliRun where
  calls : List Call
  result : Outcome GoError

/-- The function `sign` of the command line. -/
def sign (os : OS) (lib : OpenPGP) (c : Context) (converter : Converter) : CliRun :=
  let input := c.Args.headD ""
  if input = "" then
    { calls := [], result := Outcome.returned (errors.New "no input was provided for signing") }
  else
    let opened : Except Error File := if input ≠ "-" then os.Open input else Except.ok os.Stdin
    match opened with
    | Except.error err =>
      { calls := [],
        result := Outcome.returned (errors.Wrap (some err) "failed to open input file") }
    | Except.ok r =>
      let output := c.Args.getD 1 ""
      let created : Except Error (Option Nat) :=
        if output ≠ "" ∧ output ≠ "-" then (os.Create output).map some else Except.ok none
      match created with
      | Except.error err =>
        { calls := [],
          result := Outcome.returned (errors.Wrap (some err) "failed to create destination file") }
      | Except.ok w =>
        let run := converter.Sign lib (Reader.file r) c.clearSign c.detachSign c.armor
        match run.result with
        | Outcome.panicked => { calls := run.calls, result := Outcome.panicked }
        | Outcome.returned (_, some err) =>
          { calls := run.calls, result := Outcome.returned (some err) }
        | Outcome.returned (b, none) =>
          let b := b.getD []
          let b := if (c.detachSign && c.armor) || c.clearSign then b ++ [10] else b
          match os.Write w b with
          | some err =>
            { calls := run.calls ++ [Call.Write b],
              result := Outcome.returned (errors.Wrap (some err) "failed to write signature out") }
          | none => { calls := run.calls ++ [Call.Write b], result := Outcome.returned none }

/-! ## Output shapes -/

/-- The four shapes of a signature artifact. -/
inductive Shape where
  | armoredDetached
  | binaryDetached
  | clearSigned
  | inlineSigned
  deriving DecidableEq, Repr

/-- The shape written by a signing routine of the library; `none` for a
call that is not the start of a signature. -/
def Call.shape : Call → Option Shape
  | Call.ArmoredDetachSign _ _ => some Shape.armoredDetached
  | Call.DetachSign _ _ => some Shape.binaryDetached
  | Call.clearsignEncode _ _ => some Shape.clearSigned
  | Call.Sign _ _ _ => some Shape.inlineSigned
  | _ => none

/-- The shape a run produces: that of the first signing routine it called. -/
def producedShape (calls : List Call) : Option Shape :=
  calls.findSome? Call.shape

/-- The byte strings a run of `sign` handed to `w.Write`. -/
def written (calls : List Call) : List Bytes :=
  calls.filterMap (fun call => match call with
    | Call.Write b => some b
    | _ => none)

/-! ## Concrete collaborators, for evaluating the definitions -/

namespace Demo

/-- A P-256 public key. -/
def key : ECDSAPublicKey := { Curve := Curve.P256, X := 11, Y := 22 }

/-- A KMS service holding an ECC key `alias/demo` and an RSA key `alias/rsa`,
both created at time `1600000000`. -/
def kms : KMS where
  Sign := fun _ input =>
    if input.KeyId = "alias/demo" then Except.ok { Signature := [48, 6, 2, 1, 7, 2, 1, 9] }
    else Except.error (Error.ext 400)
  DescribeKeyWithContext := fun _ _ keyName =>
    if keyName = "alias/demo" ∨ keyName = "alias/rsa" then
      Except.ok { KeyMetadata := some { CreationDate := some 1600000000 } }
    else Except.error (Error.ext 404)
  GetPublicKey := fun _ keyName =>
    if keyName = "alias/demo" then Except.ok { PublicKey := [48, 89] }
    else if keyName = "alias/rsa" then Except.ok { PublicKey := [48, 130] }
    else Except.error (Error.ext 404)

/-- A session, client constructor and DER decoder around `kms`. -/
def aws : AWS where
  NewSessionWithOptions := Except.ok 1
  kmsNew := fun session _ => session
  svc := kms
  ParsePKIXPublicKey := fun der =>
    if der = [48, 89] then Except.ok (CryptoPublicKey.ecdsa key)
    else if der = [48, 130] then Except.ok (CryptoPublicKey.rsa 3233 17)
    else Except.error (Error.ext 1)
  keyId := fun _ _ => 99

/-- The adapter for `alias/demo`. -/
def signer : GpgKms.signer := newSigner 1 "alias/demo" (CryptoPublicKey.ecdsa key)

/-- The primary key packet for `key`. -/
def primaryKey : packet.PublicKey :=
  { CreationTime := 1600000000, PubKeyAlgo := packet.PubKeyAlgoECDSA,
    PublicKey := CryptoPublicKey.ecdsa key, KeyId := 99 }

/-- The entity `NewWithContext` builds for `alias/demo`. -/
def entity : openpgp.Entity :=
  { PrimaryKey := primaryKey
    PrivateKey := { PublicKey := primaryKey, PrivateKey := signer }
    Identities := ∅ }

/-- The bytes behind a reader. -/
def readAll : Reader → Bytes
  | Reader.file f => f.data
  | Reader.other data => data

/-- A library whose writers are the bytes written so far; each routine
writes a recognisable marker. -/
def lib : OpenPGP where
  Writer := Bytes
  bb := []
  Bytes := fun w => w
  ArmoredDetachSign := fun w _ _ _ => Res.ok (w ++ [45, 45, 45, 45, 45, 66])
  DetachSign := fun w _ _ _ => Res.ok (w ++ [136, 64])
  clearsignEncode := fun w _ _ => Res.ok (w ++ [45, 45, 45, 45, 45, 67])
  Sign := fun w _ _ _ => Res.ok (w ++ [163])
  Copy := fun w r => Res.ok (w ++ readAll r)
  Close := fun w => Res.ok (w ++ [0])
  SignUserId := fun _ _ _ _ _ => Res.ok [48, 6, 2, 1, 7, 2, 1, 9]
  armorEncode := fun w _ => Res.ok (w ++ [45, 45, 45, 45, 45, 75])
  Serialize := fun _ w => Res.ok (w ++ [153])

/-- A converter around `entity`. -/
def converter : Converter := New (some entity)

/-- A regular file whose `Stat` succeeds. -/
def file : File :=
  { Name := "/tmp/msg.txt", Stat := Except.ok { ModTime := 1700000000 }, data := [104, 105] }

/-- An operating system with that file and standard input. -/
def os : OS where
  Stdin := { Name := "/dev/stdin", Stat := Except.ok { ModTime := 1 }, data := [104, 105] }
  Open := fun path => if path = "/tmp/msg.txt" then Except.ok file else Except.error (Error.ext 2)
  Create := fun _ => Except.ok 3
  Write := fun _ _ => none

end Demo

/-! ## The adapter -/

/-- C1: whenever the digest is not 32 bytes long or the hint is not
`crypto.SHA256`, `signer.Sign` returns the error "only SHA-256 digest are
supported" (non-nil) and a nil signature, and sends no request to the
remote service. -/
theorem signer_Sign_rejects_locally (svc : KMS) (s : signer) (digest : Bytes)
    (opts : SignerOpts)
    (h : digest.length ≠ 32 ∨ opts ≠ SignerOpts.hash crypto.SHA256) :
    (signer.Sign svc s digest opts).err = errors.New "only SHA-256 digest are supported" ∧
    (signer.Sign svc s digest opts).err ≠ none ∧
    (signer.Sign svc s digest opts).signature = none ∧
    (signer.Sign svc s digest opts).requests = [] := by
  have h' : digest.length ≠ crypto.Hash.Size crypto.SHA256 ∨
      opts ≠ SignerOpts.hash crypto.SHA256 := h
  simp only [signer.Sign, if_pos h']
  simp [errors.New]

theorem signer_Sign_rejects_locally_witness :
    ((List.replicate 20 0).length ≠ 32 ∨
        SignerOpts.hash crypto.SHA256 ≠ SignerOpts.hash crypto.SHA256) ∧
    (signer.Sign Demo.kms Demo.signer (List.replicate 20 0)
        (SignerOpts.hash crypto.SHA256)).signature = none ∧
    (signer.Sign Demo.kms Demo.signer (List.replicate 20 0)
        (SignerOpts.hash crypto.SHA256)).requests = [] :=
  ⟨Or.inl (by decide),
   (signer_Sign_rejects_locally Demo.kms Demo.signer (List.replicate 20 0)
      (SignerOpts.hash crypto.SHA256) (Or.inl (by decide))).2.2⟩

/-- C2: for a 32-byte digest with hint `crypto.SHA256`, `signer.Sign` sends
exactly one request, carrying the adapter key id, the digest itself, message
type `DIGEST` and algorithm `ECDSA_SHA_256`; when the service answers with a
signature, that signature is returned with a nil error; when it answers with
an error, a nil signature and that error wrapped are returned; the adapter
is the same afterwards. -/
theorem signer_Sign_forwards_once (svc : KMS) (s : signer) (digest : Bytes)
    (h : digest.length = 32) :
    (signer.Sign svc s digest (SignerOpts.hash crypto.SHA256)).requests =
      [{ KeyId := s.keyID, Message := digest, MessageType := "DIGEST",
         SigningAlgorithm := "ECDSA_SHA_256" }] ∧
    (∀ so : SignOutput,
      svc.Sign s.kms { KeyId := s.keyID, Message := digest, MessageType := "DIGEST",
                       SigningAlgorithm := "ECDSA_SHA_256" } = Except.ok so →
      (signer.Sign svc s digest (SignerOpts.hash crypto.SHA256)).signature = some so.Signature ∧
      (signer.Sign svc s digest (SignerOpts.hash crypto.SHA256)).err = none) ∧
    (∀ e : Error,
      svc.Sign s.kms { KeyId := s.keyID, Message := digest, MessageType := "DIGEST",
                       SigningAlgorithm := "ECDSA_SHA_256" } = Except.error e →
      (signer.Sign svc s digest (SignerOpts.hash crypto.SHA256)).signature = none ∧
      (signer.Sign svc s digest (SignerOpts.hash crypto.SHA256)).err =
        some (Error.wrap e "failed to sign digest")) ∧
    (signer.Sign svc s digest (SignerOpts.hash crypto.SHA256)).self = s := by
  have hn : ¬ (digest.length ≠ crypto.Hash.Size crypto.SHA256 ∨
      SignerOpts.hash crypto.SHA256 ≠ SignerOpts.hash crypto.SHA256) := by
    simp [h, crypto.Hash.Size, crypto.SHA256]
  simp only [signer.Sign, if_neg hn]
  refine ⟨?_, ?_, ?_, ?_⟩
  · cases svc.Sign s.kms _ <;> rfl
  · intro so hso
    rw [hso]
    exact ⟨rfl, rfl⟩
  · intro e he
    rw [he]
    exact ⟨rfl, rfl⟩
  · cases svc.Sign s.kms _ <;> rfl

theorem signer_Sign_forwards_once_witness :
    (List.replicate 32 7).length = 32 ∧
    (signer.Sign Demo.kms Demo.signer (List.replicate 32 7)
        (SignerOpts.hash crypto.SHA256)).requests =
      [{ KeyId := "alias/demo", Message := List.replicate 32 7, MessageType := "DIGEST",
         SigningAlgorithm := "ECDSA_SHA_256" }] ∧
    (signer.Sign Demo.kms Demo.signer (List.replicate 32 7)
        (SignerOpts.hash crypto.SHA256)).signature = some [48, 6, 2, 1, 7, 2, 1, 9] :=
  ⟨by decide,
   (signer_Sign_forwards_once Demo.kms Demo.signer (List.replicate 32 7) (by decide)).1,
   ((signer_Sign_forwards_once Demo.kms Demo.signer (List.replicate 32 7) (by decide)).2.1
      { Signature := [48, 6, 2, 1, 7, 2, 1, 9] } rfl).1⟩

/-! ## `Converter.Sign` -/

/-- The tail of the default case only appends calls to those made so far. -/
theorem Converter.finish_calls (lib : OpenPGP) (c : Converter) (pre : List Call)
    (wc : lib.Writer) (data : Reader) :
    ∃ rest, (Converter.finish lib c pre wc data).calls = pre ++ rest ∧
      ∀ call ∈ rest, call = Call.Copy ∨ call = Call.Close := by
  unfold Converter.finish
  cases h : lib.Copy wc data with
  | panic => exact ⟨[Call.Copy], by simp, by simp⟩
  | err e => exact ⟨[Call.Copy, Call.Close], by simp, by simp⟩
  | ok wc1 =>
    cases h1 : lib.Close wc1 with
    | panic => exact ⟨[Call.Copy, Call.Close], by simp [h1], by simp⟩
    | err e => exact ⟨[Call.Copy, Call.Close], by simp [h1], by simp⟩
    | ok wc2 => exact ⟨[Call.Copy, Call.Close], by simp [h1], by simp⟩

/-- When copying and closing succeed, the tail returns the buffer. -/
theorem Converter.finish_ok (lib : OpenPGP) (c : Converter) (pre : List Call)
    (wc wc1 wc2 : lib.Writer) (data : Reader)
    (hcopy : lib.Copy wc data = Res.ok wc1) (hclose : lib.Close wc1 = Res.ok wc2) :
    (Converter.finish lib c pre wc data).result =
      Outcome.returned (some (lib.Bytes wc2), none) := by
  simp [Converter.finish, hcopy, hclose]

/-- Clear-signing on a converter holding an entity starts with
`clearsign.Encode` on the entity's private key. -/
theorem Converter.Sign_clearsigned_calls (lib : OpenPGP) (c : Converter) (data : Reader)
    (armored : Bool) (entity : openpgp.Entity) (hent : c.entity = some entity) :
    ∃ rest, (Converter.Sign lib c data true false armored).calls =
      Call.clearsignEncode entity.PrivateKey c.cfg :: rest := by
  simp only [Converter.Sign, hent]
  cases h : lib.clearsignEncode lib.bb entity.PrivateKey c.cfg with
  | panic => exact ⟨[], by simp⟩
  | err e => exact ⟨[], by simp⟩
  | ok wc =>
    obtain ⟨rest, hrest, _⟩ := Converter.finish_calls lib c
      [Call.clearsignEncode entity.PrivateKey c.cfg] wc data
    exact ⟨rest, by simpa using hrest⟩

/-- Inline signing, once the file hints are built, starts with
`openpgp.Sign` on those hints. -/
theorem Converter.Sign_inline_calls (lib : OpenPGP) (c : Converter) (data : Reader)
    (armored : Bool) (hints : openpgp.FileHints)
    (hhints : Converter.fileHints data = Outcome.returned hints) :
    ∃ rest, (Converter.Sign lib c data false false armored).calls =
      Call.Sign c.entity hints c.cfg :: rest := by
  simp only [Converter.Sign, hhints]
  cases h : lib.Sign lib.bb c.entity hints c.cfg with
  | panic => exact ⟨[], by simp⟩
  | err e => exact ⟨[], by simp⟩
  | ok wc =>
    obtain ⟨rest, hrest, _⟩ := Converter.finish_calls lib c
      [Call.Sign c.entity hints c.cfg] wc data
    exact ⟨rest, by simpa using hrest⟩

/-- C3: `Converter.Sign` follows the decision table. With
(clearsigned, detached, armored) = (false, true, true) its one library call
is `ArmoredDetachSign`; with (false, true, false) it is `DetachSign`; with
(true, false, any) on a converter holding an entity the first call is
`clearsign.Encode`; with (false, false, any), once the file hints are built,
the first call is `openpgp.Sign`. In each row the bytes returned on success
are the buffer that routine wrote, and with detached false the whole run is
the same for both values of armored. -/
theorem Converter_Sign_decision_table (lib : OpenPGP) (c : Converter) (data : Reader) :
    ((Converter.Sign lib c data false true true).calls =
        [Call.ArmoredDetachSign c.entity c.cfg] ∧
      producedShape (Converter.Sign lib c data false true true).calls =
        some Shape.armoredDetached ∧
      ∀ bb, lib.ArmoredDetachSign lib.bb c.entity data c.cfg = Res.ok bb →
        (Converter.Sign lib c data false true true).result =
          Outcome.returned (some (lib.Bytes bb), none)) ∧
    ((Converter.Sign lib c data false true false).calls = [Call.DetachSign c.entity c.cfg] ∧
      producedShape (Converter.Sign lib c data false true false).calls =
        some Shape.binaryDetached ∧
      ∀ bb, lib.DetachSign lib.bb c.entity data c.cfg = Res.ok bb →
        (Converter.Sign lib c data false true false).result =
          Outcome.returned (some (lib.Bytes bb), none)) ∧
    (∀ (armored : Bool) (entity : openpgp.Entity), c.entity = some entity →
      (Converter.Sign lib c data true false armored).calls.head? =
        some (Call.clearsignEncode entity.PrivateKey c.cfg) ∧
      producedShape (Converter.Sign lib c data true false armored).calls =
        some Shape.clearSigned ∧
      ∀ wc wc1 wc2, lib.clearsignEncode lib.bb entity.PrivateKey c.cfg = Res.ok wc →
        lib.Copy wc data = Res.ok wc1 → lib.Close wc1 = Res.ok wc2 →
        (Converter.Sign lib c data true false armored).result =
          Outcome.returned (some (lib.Bytes wc2), none)) ∧
    (∀ (armored : Bool) (hints : openpgp.FileHints),
      Converter.fileHints data = Outcome.returned hints →
      (Converter.Sign lib c data false false armored).calls.head? =
        some (Call.Sign c.entity hints c.cfg) ∧
      producedShape (Converter.Sign lib c data false false armored).calls =
        some Shape.inlineSigned ∧
      ∀ wc wc1 wc2, lib.Sign lib.bb c.entity hints c.cfg = Res.ok wc →
        lib.Copy wc data = Res.ok wc1 → lib.Close wc1 = Res.ok wc2 →
        (Converter.Sign lib c data false false armored).result =
          Outcome.returned (some (lib.Bytes wc2), none)) ∧
    (∀ clearsigned : Bool,
      Converter.Sign lib c data clearsigned false true =
        Converter.Sign lib c data clearsigned false false) := by
  refine ⟨?_, ?_, ?_, ?_, ?_⟩
  · refine ⟨?_, ?_, ?_⟩
    · simp only [Converter.Sign]
      cases lib.ArmoredDetachSign lib.bb c.entity data c.cfg <;> simp
    · simp only [Converter.Sign]
      cases lib.ArmoredDetachSign lib.bb c.entity data c.cfg <;>
        simp [producedShape, Call.shape]
    · intro bb hbb
      simp [Converter.Sign, hbb]
  · refine ⟨?_, ?_, ?_⟩
    · simp only [Converter.Sign]
      cases lib.DetachSign lib.bb c.entity data c.cfg <;> simp
    · simp only [Converter.Sign]
      cases lib.DetachSign lib.bb c.entity data c.cfg <;>
        simp [producedShape, Call.shape]
    · intro bb hbb
      simp [Converter.Sign, hbb]
  · intro armored entity hent
    have hcalls := Converter.Sign_clearsigned_calls lib c data armored entity hent
    obtain ⟨rest, hrest⟩ := hcalls
    refine ⟨by rw [hrest]; rfl, by rw [hrest]; simp [producedShape, Call.shape], ?_⟩
    intro wc wc1 wc2 henc hcopy hclose
    simp only [Converter.Sign, hent, henc]
    simpa using Converter.finish_ok lib c _ wc wc1 wc2 data hcopy hclose
  · intro armored hints hhints
    have hcalls := Converter.Sign_inline_calls lib c data armored hints hhints
    obtain ⟨rest, hrest⟩ := hcalls
    refine ⟨by rw [hrest]; rfl, by rw [hrest]; simp [producedShape, Call.shape], ?_⟩
    intro wc wc1 wc2 hsign hcopy hclose
    simp only [Converter.Sign, hhints, hsign]
    simpa using Converter.finish_ok lib c _ wc wc1 wc2 data hcopy hclose
  · intro clearsigned
    simp [Converter.Sign]

theorem Converter_Sign_decision_table_witness :
    Demo.converter.entity = some Demo.entity ∧
    producedShape
        (Converter.Sign Demo.lib Demo.converter (Reader.file Demo.file) true false true).calls =
      some Shape.clearSigned ∧
    (Converter.Sign Demo.lib Demo.converter (Reader.file Demo.file) false true true).calls =
      [Call.ArmoredDetachSign Demo.converter.entity Demo.converter.cfg] :=
  ⟨rfl,
   ((Converter_Sign_decision_table Demo.lib Demo.converter (Reader.file Demo.file)).2.2.1
      true Demo.entity rfl).2.1,
   (Converter_Sign_decision_table Demo.lib Demo.converter (Reader.file Demo.file)).1.1⟩

/-- C4: with clearsigned and detached both true, `Converter.Sign` makes one
library call, `ArmoredDetachSign` when armored is true and `DetachSign`
otherwise: the artifact is a detached signature, never a clear-signed one,
and `clearsign.Encode` is not called. -/
theorem Converter_Sign_clearsigned_detached (lib : OpenPGP) (c : Converter) (data : Reader)
    (armored : Bool) :
    (Converter.Sign lib c data true true armored).calls =
      [if armored then Call.ArmoredDetachSign c.entity c.cfg
       else Call.DetachSign c.entity c.cfg] ∧
    producedShape (Converter.Sign lib c data true true armored).calls =
      some (if armored then Shape.armoredDetached else Shape.binaryDetached) ∧
    producedShape (Converter.Sign lib c data true true armored).calls ≠
      some Shape.clearSigned := by
  cases armored
  · simp only [Converter.Sign]
    cases lib.DetachSign lib.bb c.entity data c.cfg <;> simp [producedShape, Call.shape]
  · simp only [Converter.Sign]
    cases lib.ArmoredDetachSign lib.bb c.entity data c.cfg <;>
      simp [producedShape, Call.shape]

/-- C9: for inline signing of a file whose `Stat` succeeds, the hints
handed to `openpgp.Sign` carry the base name of the file and the zero
modification time, whatever the file's modification time is; and when
`Stat` fails the call panics before any library call. -/
theorem Converter_Sign_inline_file_hints (lib : OpenPGP) (c : Converter) (name : String)
    (info : FileInfo) (contents : Bytes) (armored : Bool) (e : Error) :
    (Converter.Sign lib c
        (Reader.file { Name := name, Stat := Except.ok info, data := contents })
        false false armored).calls.head? =
      some (Call.Sign c.entity
        { IsBinary := false, FileName := filepath.Base name, ModTime := 0 } c.cfg) ∧
    (Converter.Sign lib c
        (Reader.file { Name := name, Stat := Except.error e, data := contents })
        false false armored).calls = [] ∧
    (Converter.Sign lib c
        (Reader.file { Name := name, Stat := Except.error e, data := contents })
        false false armored).result = Outcome.panicked := by
  refine ⟨?_, ?_, ?_⟩
  · obtain ⟨rest, hrest⟩ := Converter.Sign_inline_calls lib c
      (Reader.file { Name := name, Stat := Except.ok info, data := contents }) armored
      { IsBinary := false, FileName := filepath.Base name, ModTime := 0 } rfl
    rw [hrest]
    rfl
  · simp [Converter.Sign, Converter.fileHints]
  · simp [Converter.Sign, Converter.fileHints]

/-! ## The command line `sign` -/

/-- With detached true, the one library call is the detached routine chosen
by armored, whatever clearsigned is. -/
theorem Converter.Sign_detached_shape (lib : OpenPGP) (c : Converter) (data : Reader)
    (clearsigned armored : Bool) :
    producedShape (Converter.Sign lib c data clearsigned true armored).calls =
      some (if armored then Shape.armoredDetached else Shape.binaryDetached) := by
  cases armored
  · simp only [Converter.Sign]
    cases lib.DetachSign lib.bb c.entity data c.cfg <;> simp [producedShape, Call.shape]
  · simp only [Converter.Sign]
    cases lib.ArmoredDetachSign lib.bb c.entity data c.cfg <;>
      simp [producedShape, Call.shape]

/-- With detached false, a run that reaches a signing routine produces the
shape chosen by clearsigned. -/
theorem Converter.Sign_not_detached_shape (lib : OpenPGP) (c : Converter) (data : Reader)
    (clearsigned armored : Bool) (shape : Shape)
    (h : producedShape (Converter.Sign lib c data clearsigned false armored).calls =
      some shape) :
    shape = if clearsigned then Shape.clearSigned else Shape.inlineSigned := by
  cases clearsigned
  · cases hh : Converter.fileHints data with
    | panicked => simp [Converter.Sign, hh, producedShape] at h
    | returned hints =>
      obtain ⟨rest, hrest⟩ := Converter.Sign_inline_calls lib c data armored hints hh
      rw [hrest] at h
      simpa [producedShape, Call.shape] using h.symm
  · cases he : c.entity with
    | none => simp [Converter.Sign, he, producedShape] at h
    | some entity =>
      obtain ⟨rest, hrest⟩ := Converter.Sign_clearsigned_calls lib c data armored entity he
      rw [hrest] at h
      simpa [producedShape, Call.shape] using h.symm

/-- Except for clear-sign with detach-sign and without armor, the test under
which `sign` appends a newline holds exactly when the shape produced is an
armored detached signature or a clear-signed message. -/
theorem newline_rule_matches_shape (lib : OpenPGP) (c : Converter) (data : Reader)
    (clearSign detachSign armor : Bool) (shape : Shape)
    (hshape : producedShape (Converter.Sign lib c data clearSign detachSign armor).calls =
      some shape)
    (hne : ¬ (clearSign = true ∧ detachSign = true ∧ armor = false)) :
    ((detachSign && armor) || clearSign) = true ↔
      (shape = Shape.armoredDetached ∨ shape = Shape.clearSigned) := by
  cases detachSign
  · have hs := Converter.Sign_not_detached_shape lib c data clearSign armor shape hshape
    cases clearSign <;> simp [hs]
  · rw [Converter.Sign_detached_shape] at hshape
    have hs : shape = if armor then Shape.armoredDetached else Shape.binaryDetached :=
      (Option.some.inj hshape).symm
    subst hs
    cases armor <;> cases clearSign <;> simp_all

/-- C6: with `--clear-sign --detach-sign` and no `--armor`, once the input
is opened, the destination is ready and the library's `DetachSign` succeeds,
`sign` makes exactly two calls: `DetachSign`, which produces a raw binary
detached signature, and a write of that signature followed by a newline
byte. -/
theorem sign_newline_after_binary_detached (os : OS) (lib : OpenPGP) (args : List String)
    (converter : Converter) (r : File) (w : Option Nat) (bb : lib.Writer)
    (hinput : args.headD "" ≠ "")
    (hopen : (if args.headD "" ≠ "-" then os.Open (args.headD "") else Except.ok os.Stdin) =
      Except.ok r)
    (hcreate : (if args.getD 1 "" ≠ "" ∧ args.getD 1 "" ≠ "-"
        then (os.Create (args.getD 1 "")).map some else Except.ok none) = Except.ok w)
    (hsig : lib.DetachSign lib.bb converter.entity (Reader.file r) converter.cfg = Res.ok bb) :
    (sign os lib { Args := args, clearSign := true, detachSign := true, armor := false }
        converter).calls =
      [Call.DetachSign converter.entity converter.cfg, Call.Write (lib.Bytes bb ++ [10])] ∧
    producedShape
      (sign os lib { Args := args, clearSign := true, detachSign := true, armor := false }
        converter).calls = some Shape.binaryDetached ∧
    (Converter.Sign lib converter (Reader.file r) true true false).result =
      Outcome.returned (some (lib.Bytes bb), none) ∧
    written
      (sign os lib { Args := args, clearSign := true, detachSign := true, armor := false }
        converter).calls = [lib.Bytes bb ++ [10]] := by
  have hrun : Converter.Sign lib converter (Reader.file r) true true false =
      { conv := converter, calls := [Call.DetachSign converter.entity converter.cfg],
        result := Outcome.returned (some (lib.Bytes bb), none) } := by
    simp [Converter.Sign, hsig]
  have hcalls : (sign os lib
      { Args := args, clearSign := true, detachSign := true, armor := false } converter).calls =
      [Call.DetachSign converter.entity converter.cfg, Call.Write (lib.Bytes bb ++ [10])] := by
    unfold sign
    simp only [hinput, if_false, hopen, hcreate, hrun]
    cases hw : os.Write w (lib.Bytes bb ++ [10]) <;> simp [hw]
  refine ⟨hcalls, ?_, by rw [hrun], ?_⟩
  · rw [hcalls]
    simp [producedShape, Call.shape]
  · rw [hcalls]
    simp [written]

theorem sign_newline_after_binary_detached_witness :
    (sign Demo.os Demo.lib
        { Args := ["/tmp/msg.txt"], clearSign := true, detachSign := true, armor := false }
        Demo.converter).calls =
      [Call.DetachSign (some Demo.entity) { DefaultHash := 0 }, Call.Write [136, 64, 10]] ∧
    producedShape (sign Demo.os Demo.lib
        { Args := ["/tmp/msg.txt"], clearSign := true, detachSign := true, armor := false }
        Demo.converter).calls = some Shape.binaryDetached :=
  ⟨(sign_newline_after_binary_detached Demo.os Demo.lib ["/tmp/msg.txt"] Demo.converter
      Demo.file none [136, 64] (by decide) rfl rfl rfl).1,
   (sign_newline_after_binary_detached Demo.os Demo.lib ["/tmp/msg.txt"] Demo.converter
      Demo.file none [136, 64] (by decide) rfl rfl rfl).2.1⟩

/-! ## `NewWithContext` -/

/-- C10: whenever the session, `DescribeKey`, `GetPublicKey` and the DER
decoder all succeed and the decoded key is not an ECDSA key (an RSA key, for
one), `NewWithContext` returns a nil entity together with a nil error. -/
theorem NewWithContext_not_ecdsa_nil_nil (w : AWS) (ctx : Nat) (key : String)
    (cfgs : List Nat) (session : Nat) (ki : DescribeKeyOutput) (pk : GetPublicKeyOutput)
    (decodedPK : CryptoPublicKey)
    (hs : w.NewSessionWithOptions = Except.ok session)
    (hd : w.svc.DescribeKeyWithContext (w.kmsNew session cfgs) ctx key = Except.ok ki)
    (hg : w.svc.GetPublicKey (w.kmsNew session cfgs) key = Except.ok pk)
    (hp : w.ParsePKIXPublicKey pk.PublicKey = Except.ok decodedPK)
    (hne : ∀ k, decodedPK ≠ CryptoPublicKey.ecdsa k) :
    NewWithContext w ctx key cfgs = Outcome.returned (none, none) := by
  unfold NewWithContext
  simp only [hs, hd, hg, hp]
  cases decodedPK with
  | ecdsa k => exact absurd rfl (hne k)
  | rsa n e => rfl
  | other tag => rfl

theorem NewWithContext_not_ecdsa_nil_nil_witness :
    NewWithContext Demo.aws 0 "alias/rsa" [] = Outcome.returned (none, none) :=
  NewWithContext_not_ecdsa_nil_nil Demo.aws 0 "alias/rsa" [] 1
    { KeyMetadata := some { CreationDate := some 1600000000 } } { PublicKey := [48, 130] }
    (CryptoPublicKey.rsa 3233 17) rfl rfl rfl rfl (by intro k hk; cases hk)

/-- C7: whenever `NewWithContext` returns an entity, the key decoded from
the `GetPublicKey` answer is an ECDSA key `k`; the signer inside the private
key advertises `k` through `Public()`, the primary key packet is the one
`NewECDSAPublicKey` builds from `k` and holds `k`, and the creation time of
the primary key and of the private key both equal the `CreationDate` of the
`DescribeKey` metadata. The error returned with the entity is nil. -/
theorem NewWithContext_same_key_and_time (w : AWS) (ctx : Nat) (key : String)
    (cfgs : List Nat) (entity : openpgp.Entity) (err : GoError)
    (h : NewWithContext w ctx key cfgs = Outcome.returned (some entity, err)) :
    ∃ (session : Nat) (ki : DescribeKeyOutput) (pk : GetPublicKeyOutput)
      (metadata : KeyMetadata) (creationDate : Time) (k : ECDSAPublicKey),
      w.NewSessionWithOptions = Except.ok session ∧
      w.svc.DescribeKeyWithContext (w.kmsNew session cfgs) ctx key = Except.ok ki ∧
      w.svc.GetPublicKey (w.kmsNew session cfgs) key = Except.ok pk ∧
      w.ParsePKIXPublicKey pk.PublicKey = Except.ok (CryptoPublicKey.ecdsa k) ∧
      ki.KeyMetadata = some metadata ∧
      metadata.CreationDate = some creationDate ∧
      entity.PrivateKey.PrivateKey.Public = CryptoPublicKey.ecdsa k ∧
      entity.PrivateKey.PrivateKey.keyID = key ∧
      packet.NewECDSAPublicKey w.keyId creationDate k = Outcome.returned entity.PrimaryKey ∧
      entity.PrimaryKey.PublicKey = entity.PrivateKey.PrivateKey.Public ∧
      entity.PrivateKey.PublicKey.PublicKey = entity.PrivateKey.PrivateKey.Public ∧
      entity.PrimaryKey.CreationTime = creationDate ∧
      entity.PrivateKey.PublicKey.CreationTime = creationDate ∧
      err = none := by
  unfold NewWithContext at h
  cases hs : w.NewSessionWithOptions with
  | error e => simp [hs] at h
  | ok session =>
    cases hd : w.svc.DescribeKeyWithContext (w.kmsNew session cfgs) ctx key with
    | error e => simp [hs, hd] at h
    | ok ki =>
      cases hg : w.svc.GetPublicKey (w.kmsNew session cfgs) key with
      | error e => simp [hs, hd, hg] at h
      | ok pk =>
        cases hp : w.ParsePKIXPublicKey pk.PublicKey with
        | error e => simp [hs, hd, hg, hp] at h
        | ok decodedPK =>
          cases decodedPK with
          | rsa n e => simp [hs, hd, hg, hp] at h
          | other tag => simp [hs, hd, hg, hp] at h
          | ecdsa k =>
            cases hm : ki.KeyMetadata with
            | none => simp [hs, hd, hg, hp, hm] at h
            | some metadata =>
              cases hc : metadata.CreationDate with
              | none => simp [hs, hd, hg, hp, hm, hc] at h
              | some creationDate =>
                cases hcurve : k.Curve with
                | P224 =>
                  simp [hs, hd, hg, hp, hm, hc, packet.NewECDSAPublicKey, hcurve] at h
                | P256 =>
                  simp [hs, hd, hg, hp, hm, hc, packet.NewECDSAPublicKey,
                    packet.NewSignerPrivateKey, signer.Public, newSigner, hcurve] at h
                  obtain ⟨rfl, rfl⟩ := h
                  exact ⟨session, ki, pk, metadata, creationDate, k, rfl, hd, hg, hp, hm, hc,
                    by simp [signer.Public], rfl,
                    by simp [packet.NewECDSAPublicKey, hcurve],
                    by simp [signer.Public], by simp [signer.Public], rfl, rfl, rfl⟩
                | P384 =>
                  simp [hs, hd, hg, hp, hm, hc, packet.NewECDSAPublicKey,
                    packet.NewSignerPrivateKey, signer.Public, newSigner, hcurve] at h
                  obtain ⟨rfl, rfl⟩ := h
                  exact ⟨session, ki, pk, metadata, creationDate, k, rfl, hd, hg, hp, hm, hc,
                    by simp [signer.Public], rfl,
                    by simp [packet.NewECDSAPublicKey, hcurve],
                    by simp [signer.Public], by simp [signer.Public], rfl, rfl, rfl⟩
                | P521 =>
                  simp [hs, hd, hg, hp, hm, hc, packet.NewECDSAPublicKey,
                    packet.NewSignerPrivateKey, signer.Public, newSigner, hcurve] at h
                  obtain ⟨rfl, rfl⟩ := h
                  exact ⟨session, ki, pk, metadata, creationDate, k, rfl, hd, hg, hp, hm, hc,
                    by simp [signer.Public], rfl,
                    by simp [packet.NewECDSAPublicKey, hcurve],
                    by simp [signer.Public], by simp [signer.Public], rfl, rfl, rfl⟩

theorem NewWithContext_same_key_and_time_witness :
    NewWithContext Demo.aws 0 "alias/demo" [] = Outcome.returned (some Demo.entity, none) ∧
    Demo.entity.PrimaryKey.PublicKey = Demo.entity.PrivateKey.PrivateKey.Public ∧
    Demo.entity.PrimaryKey.CreationTime = Demo.entity.PrivateKey.PublicKey.CreationTime := by
  obtain ⟨_, _, _, _, _, _, _, _, _, _, _, _, _, _, _, hkey, _, hprimary, hprivate, _⟩ :=
    NewWithContext_same_key_and_time Demo.aws 0 "alias/demo" [] Demo.entity none rfl
  exact ⟨rfl, hkey, hprimary.trans hprivate.symm⟩

/-! ## `Converter.Export` -/

/-- The receiver after `Export` on an accepted user id: its entity is the
old one with the identity for that id put into the map; the identity holds
the self-signature literal, with or without the signature material. -/
theorem Converter.Export_conv (lib : OpenPGP) (c : Converter) (name comment email : String)
    (armored : Bool) (entity : openpgp.Entity) (uid : packet.UserId)
    (he : c.entity = some entity)
    (hu : packet.NewUserId name comment email = some uid) :
    ∃ material : Option Bytes,
      (Converter.Export lib c name comment email armored).conv =
        { cfg := c.cfg,
          entity := some
            { PrimaryKey := entity.PrimaryKey,
              PrivateKey := entity.PrivateKey,
              Identities := entity.Identities.insert uid.Id
                { Name := uid.Id, UserId := some uid,
                  SelfSignature := some
                    { Converter.selfSignature c.cfg entity.PrimaryKey with
                      signed := material } } } } := by
  unfold Converter.Export
  simp only [hu, he]
  cases lib.SignUserId (Converter.selfSignature c.cfg entity.PrimaryKey) uid.Id
      entity.PrimaryKey entity.PrivateKey c.cfg with
  | panic => exact ⟨none, rfl⟩
  | err e => exact ⟨none, rfl⟩
  | ok material =>
    refine ⟨some material, ?_⟩
    cases armored
    · simp only [Bool.false_eq_true, if_false]
      split <;> rfl
    · simp only [if_true]
      split
      · rfl
      · rfl
      · split
        · rfl
        · rfl
        · split <;> rfl

/-- C8: after `Export` on a converter holding an entity and a user id that
`NewUserId` accepts, the entity keeps its keys and its identity map holds,
under the rendered id, an identity whose self-signature is a positive
certification with the primary key's algorithm, the configured hash
(SHA-256 when the configuration is the zero value), the primary key's
creation time, the primary key's id as issuer, the primary-id marker, and
valid flags with certify and sign; every other id maps to what it mapped to
before, and the map has at most one more entry. -/
theorem Export_adds_primary_identity (lib : OpenPGP) (c : Converter)
    (name comment email : String) (armored : Bool) (entity : openpgp.Entity)
    (uid : packet.UserId)
    (he : c.entity = some entity)
    (hu : packet.NewUserId name comment email = some uid) :
    ∃ (entity1 : openpgp.Entity) (identity : openpgp.Identity) (sig : packet.Signature),
      (Converter.Export lib c name comment email armored).conv.entity = some entity1 ∧
      (Converter.Export lib c name comment email armored).conv.cfg = c.cfg ∧
      entity1.PrimaryKey = entity.PrimaryKey ∧
      entity1.PrivateKey = entity.PrivateKey ∧
      entity1.Identities.lookup uid.Id = some identity ∧
      identity.Name = uid.Id ∧
      identity.UserId = some uid ∧
      identity.SelfSignature = some sig ∧
      sig.SigType = packet.SigTypePositiveCert ∧
      sig.PubKeyAlgo = entity.PrimaryKey.PubKeyAlgo ∧
      sig.Hash = c.cfg.Hash ∧
      (c.cfg = (New c.entity).cfg → sig.Hash = crypto.SHA256) ∧
      sig.CreationTime = entity.PrimaryKey.CreationTime ∧
      sig.IssuerKeyId = some entity.PrimaryKey.KeyId ∧
      sig.IsPrimaryId = some true ∧
      sig.FlagsValid = true ∧
      sig.FlagCertify = true ∧
      sig.FlagSign = true ∧
      (∀ id : String, id ≠ uid.Id →
        entity1.Identities.lookup id = entity.Identities.lookup id) ∧
      entity1.Identities.entries.length ≤ entity.Identities.entries.length + 1 := by
  obtain ⟨material, hconv⟩ :=
    Converter.Export_conv lib c name comment email armored entity uid he hu
  rw [hconv]
  refine ⟨_, _, _, rfl, rfl, rfl, rfl, AList.lookup_insert _, rfl, rfl, rfl, rfl, rfl, rfl,
    ?_, rfl, rfl, rfl, rfl, rfl, rfl, ?_, ?_⟩
  · intro hcfg
    simp [Converter.selfSignature, hcfg, New, packet.Config.Hash]
  · intro id hid
    exact AList.lookup_insert_ne hid
  · simp only [AList.insert_entries, List.length_cons]
    exact Nat.succ_le_succ (List.kerase_sublist _ _).length_le

theorem Export_adds_primary_identity_witness :
    ∃ (entity1 : openpgp.Entity) (identity : openpgp.Identity),
      (Converter.Export Demo.lib Demo.converter "Alice" "work" "alice@example.com"
        true).conv.entity = some entity1 ∧
      entity1.Identities.lookup "Alice (work) <alice@example.com>" = some identity ∧
      identity.Name = "Alice (work) <alice@example.com>" := by
  obtain ⟨entity1, identity, _, hentity, _, _, _, hlookup, hname, _⟩ :=
    Export_adds_primary_identity Demo.lib Demo.converter "Alice" "work" "alice@example.com"
      true Demo.entity
      { Id := "Alice (work) <alice@example.com>", Name := "Alice", Comment := "work",
        Email := "alice@example.com" } rfl (by decide)
  exact ⟨entity1, identity, hentity, hlookup, hname⟩

/-- The user id is refused exactly when a field holds an invalid character. -/
theorem packet.NewUserId_eq_none_iff (name comment email : String) :
    packet.NewUserId name comment email = none ↔
      (containsInvalid name || containsInvalid comment || containsInvalid email) = true := by
  unfold packet.NewUserId
  split <;> simp_all

/-- Once the user id is accepted, `Export` never returns the user-id error. -/
theorem Converter.Export_result_of_accepted (lib : OpenPGP) (c : Converter)
    (name comment email : String) (armored : Bool) (uid : packet.UserId)
    (hu : packet.NewUserId name comment email = some uid) :
    (Converter.Export lib c name comment email armored).result ≠
      Outcome.returned (none, errors.New "failed to create PGP User ID") := by
  unfold Converter.Export
  simp only [hu]
  cases c.entity with
  | none => simp
  | some entity =>
    simp only
    split
    · simp
    · simp [errors.Wrap, errors.New]
    · cases armored
      · simp only [Bool.false_eq_true, if_false]
        split <;> simp [errors.Wrap, errors.New]
      · simp only [if_true]
        split
        · simp
        · simp [errors.Wrap, errors.New]
        · split
          · simp
          · simp [errors.Wrap, errors.New]
          · split <;> simp [errors.Wrap, errors.New]

/-- C5, the claim as stated fails: with an empty name, with an empty email,
and with both empty, `Export` returns the serialized key and a nil error. -/
theorem Export_accepts_empty_name_or_email :
    (Converter.Export Demo.lib Demo.converter "" "work" "alice@example.com" false).result =
      Outcome.returned (some [153], none) ∧
    (Converter.Export Demo.lib Demo.converter "Alice" "work" "" false).result =
      Outcome.returned (some [153], none) ∧
    (Converter.Export Demo.lib Demo.converter "" "" "" true).result =
      Outcome.returned (some [45, 45, 45, 45, 45, 75, 153, 0], none) := by
  refine ⟨?_, ?_, ?_⟩ <;> rfl

/-- C5 as amended: `Export` returns the error "failed to create PGP User ID"
exactly when name, comment or email holds one of the characters `( ) < >` or
NUL; it then returns no bytes, calls nothing in the library and leaves the
converter as it was. The empty string holds no such character, so an empty
name, email or comment never causes this failure. -/
theorem Export_rejects_invalid_user_id (lib : OpenPGP) (c : Converter)
    (name comment email : String) (armored : Bool) :
    ((Converter.Export lib c name comment email armored).result =
        Outcome.returned (none, errors.New "failed to create PGP User ID") ↔
      (containsInvalid name || containsInvalid comment || containsInvalid email) = true) ∧
    ((containsInvalid name || containsInvalid comment || containsInvalid email) = true →
      (Converter.Export lib c name comment email armored).calls = [] ∧
      (Converter.Export lib c name comment email armored).conv = c) ∧
    errors.New "failed to create PGP User ID" ≠ none ∧
    containsInvalid "" = false := by
  refine ⟨⟨?_, ?_⟩, ?_, by simp [errors.New], by decide⟩
  · intro hres
    cases hu : packet.NewUserId name comment email with
    | none => exact (packet.NewUserId_eq_none_iff name comment email).1 hu
    | some uid =>
      exact absurd hres (Converter.Export_result_of_accepted lib c name comment email armored uid hu)
  · intro hbad
    have hu := (packet.NewUserId_eq_none_iff name comment email).2 hbad
    simp [Converter.Export, hu]
  · intro hbad
    have hu := (packet.NewUserId_eq_none_iff name comment email).2 hbad
    simp [Converter.Export, hu]

theorem Export_rejects_invalid_user_id_witness :
    (containsInvalid "Alice <admin>" || containsInvalid "" ||
        containsInvalid "alice@example.com") = true ∧
    (Converter.Export Demo.lib Demo.converter "Alice <admin>" "" "alice@example.com"
        false).result =
      Outcome.returned (none, errors.New "failed to create PGP User ID") ∧
    (Converter.Export Demo.lib Demo.converter "Alice <admin>" "" "alice@example.com"
        false).calls = [] :=
  ⟨by decide,
   (Export_rejects_invalid_user_id Demo.lib Demo.converter "Alice <admin>" ""
      "alice@example.com" false).1.2 (by decide),
   ((Export_rejects_invalid_user_id Demo.lib Demo.converter "Alice <admin>" ""
      "alice@example.com" false).2.1 (by decide)).1⟩

end GpgKms
